import Mathlib

/-!
Shallow embedding of the telemetry ingestion and anomaly-detection core of
`backend/mavlink_parser.py` (class `MAVLinkParser`), together with proofs of
the specification's claims about it.

Field values are modelled as rationals (the Python code does only orderings,
subtractions and exact divisions on them); a decoded message is an
association list from field name to value, mirroring `msg.to_dict()`; the
per-type record store is an association list from message-type tag to the
arrival-ordered list of records, mirroring the Python dict `self.messages`.
-/

set_option maxHeartbeats 1000000

namespace MavParser

/-- A decoded telemetry record: mapping from field name to numeric value,
mirroring the Python `msg_dict`. -/
def Rec := List (String × ℚ)

instance : DecidableEq Rec := by
  unfold Rec
  infer_instance

/-- `msg.get(k, d)` of Python: the value of field `k`, or default `d`. -/
def Rec.get (r : Rec) (k : String) (d : ℚ) : ℚ :=
  (List.lookup k r).getD d

/-- `k in msg` of Python: field presence. -/
def Rec.hasField (r : Rec) (k : String) : Bool :=
  (List.lookup k r).isSome

/-- The record store `self.messages`: message-type tag to arrival-ordered
records, keys in first-appearance order (a Python dict). -/
def MsgStore := List (String × List Rec)

instance : DecidableEq MsgStore := by
  unfold MsgStore
  infer_instance

/-- `self.messages[t]` when present. -/
def MsgStore.lookup (s : MsgStore) (t : String) : Option (List Rec) :=
  List.lookup t s

/-- `t in self.messages`. -/
def MsgStore.hasType (s : MsgStore) (t : String) : Bool :=
  (s.lookup t).isSome

/-- Append a record under its type, creating the key (at the end, as a
Python dict does) if absent. -/
def MsgStore.addMsg (s : MsgStore) (t : String) (r : Rec) : MsgStore :=
  match s with
  | [] => [(t, [r])]
  | (t0, rs) :: rest =>
      if t0 = t then (t0, rs ++ [r]) :: rest
      else (t0, rs) :: MsgStore.addMsg rest t r

/-- Python `sub in hay` on lowercase ASCII strings: `hasPre sub hay` is the
prefix test. -/
def hasPre : List Char → List Char → Bool
  | [], _ => true
  | _ :: _, [] => false
  | a :: as, b :: bs => a == b && hasPre as bs

/-- Python substring membership `sub in hay`. -/
def hasSub : List Char → List Char → Bool
  | sub, [] => sub.isEmpty
  | sub, c :: rest => hasPre sub (c :: rest) || hasSub sub rest

/-- `sub in hay` on strings. -/
def strIn (sub hay : String) : Bool :=
  hasSub sub.data hay.data

/-- ASCII lowercasing of one character, as Python `str.lower` does on the
ASCII range used by the query vocabulary. -/
def lowerChar (c : Char) : Char :=
  if 'A' ≤ c ∧ c ≤ 'Z' then Char.ofNat (c.toNat + 32) else c

/-- `query.lower()` (ASCII). -/
def pyLower (s : String) : String :=
  ⟨s.data.map lowerChar⟩

/-- Python `min` over a list (the empty case is never reached: every use is
guarded by a non-emptiness test, as in the source). -/
def pyMin (l : List ℚ) : ℚ :=
  match l with
  | [] => 0
  | x :: xs => xs.foldl min x

/-- Python `max` over a list (same guard remark as `pyMin`). -/
def pyMax (l : List ℚ) : ℚ :=
  match l with
  | [] => 0
  | x :: xs => xs.foldl max x

/-- `np.mean`: arithmetic mean. -/
def listMean (l : List ℚ) : ℚ :=
  l.sum / l.length

/-- One `gps_loss_events` entry. -/
structure GpsLossEvent where
  index : ℕ
  time_us : ℚ
  status : ℚ
deriving DecidableEq, Repr

/-- One `errors` entry. -/
structure ErrEvent where
  subsystem : ℚ
  error_code : ℚ
  time_us : ℚ
deriving DecidableEq, Repr

/-- One `mode_changes` entry. -/
structure ModeEvent where
  mode : ℚ
  mode_num : ℚ
  time_us : ℚ
deriving DecidableEq, Repr

/-- One `rc_loss_events` entry. -/
structure RcLossEvent where
  index : ℕ
  time_us : ℚ
deriving DecidableEq, Repr

/-- `self.metadata` after a successful parse.  A Python dict with a fixed
set of possible keys; `Option` models key absence.  `message_counts` and
`total_messages` are always present (set by `_extract_all_messages`). -/
structure Metadata where
  message_counts : List (String × ℕ)
  total_messages : ℕ
  start_time_us : Option ℚ
  end_time_us : Option ℚ
  duration_seconds : Option ℚ
  max_altitude_m : Option ℚ
  min_altitude_m : Option ℚ
  avg_altitude_m : Option ℚ
  max_battery_voltage : Option ℚ
  min_battery_voltage : Option ℚ
  max_battery_temp : Option ℚ
  min_battery_temp : Option ℚ
  gps_fix_types : Option (List ℚ)
  gps_loss_events : Option (List GpsLossEvent)
  errors : Option (List ErrEvent)
  mode_changes : Option (List ModeEvent)
  rc_loss_events : Option (List RcLossEvent)
deriving DecidableEq

/-- The battery message-type alias resolution shared by `_compute_metadata`
and `detect_anomalies`: `'BAT' if 'BAT' in self.messages else 'BATT' if
'BATT' in self.messages else None`. -/
def battKey (s : MsgStore) : Option String :=
  if s.hasType "BAT" then some "BAT"
  else if s.hasType "BATT" then some "BATT"
  else none

/-- The GPS-loss scan of `_compute_metadata`: one event per GPS record whose
`Status` (default 0) is below 3, carrying enumeration index, `TimeUS` and
`Status`. -/
def gpsLossScan (recs : List Rec) : List GpsLossEvent :=
  recs.enum.filterMap fun p =>
    if p.2.get "Status" 0 < 3 then
      some ⟨p.1, p.2.get "TimeUS" 0, p.2.get "Status" 0⟩
    else none

/-- `f'C{j}'`. -/
def cName (j : ℕ) : String := "C" ++ toString j

/-- `[msg.get(f'C{j}', 0) for j in range(1, 9)]`. -/
def rcChannels (r : Rec) : List ℚ :=
  (List.range' 1 8).map fun j => r.get (cName j) 0

/-- The RC-loss scan of `_compute_metadata`: an event per RCIN record all of
whose 8 channels are below 900. -/
def rcLossScan (recs : List Rec) : List RcLossEvent :=
  recs.enum.filterMap fun p =>
    if (rcChannels p.2).all (fun c => decide (c < 900)) then
      some ⟨p.1, p.2.get "TimeUS" 0⟩
    else none

/-- `_compute_metadata` together with the two counters that
`_extract_all_messages` stores into `self.metadata`; `cnts` is the local
`message_counts` dict built during extraction. -/
def computeMetadata (cnts : List (String × ℕ)) (s : MsgStore) : Metadata :=
  let timeB : Option ℚ × Option ℚ × Option ℚ :=
    match s.lookup "GPS" with
    | some recs =>
        if recs.length > 0 then
          let ts := recs.map (fun r => r.get "TimeUS" 0)
          if ts ≠ [] then
            (some (pyMin ts), some (pyMax ts),
             some ((pyMax ts - pyMin ts) / 1000000))
          else (none, none, none)
        else (none, none, none)
    | none => (none, none, none)
  let altB : Option ℚ × Option ℚ × Option ℚ :=
    match s.lookup "GPS" with
    | some recs =>
        let alts := (recs.filter (fun r => r.hasField "Alt")).map
          (fun r => r.get "Alt" 0)
        if alts ≠ [] then (some (pyMax alts), some (pyMin alts),
          some (listMean alts))
        else (none, none, none)
    | none => (none, none, none)
  let battB : Option ℚ × Option ℚ × Option ℚ × Option ℚ :=
    match battKey s with
    | some k =>
        let recs := (s.lookup k).getD []
        let volts := (recs.filter (fun r => r.hasField "Volt")).map
          (fun r => r.get "Volt" 0)
        let temps := (recs.filter (fun r => r.hasField "Temp")).map
          (fun r => r.get "Temp" 0)
        ((if volts ≠ [] then some (pyMax volts) else none),
         (if volts ≠ [] then some (pyMin volts) else none),
         (if temps ≠ [] then some (pyMax temps) else none),
         (if temps ≠ [] then some (pyMin temps) else none))
    | none => (none, none, none, none)
  let gpsB : Option (List ℚ) × Option (List GpsLossEvent) :=
    match s.lookup "GPS" with
    | some recs =>
        (some ((recs.map (fun r => r.get "Status" 0)).dedup),
         some (gpsLossScan recs))
    | none => (none, none)
  { message_counts := cnts
    total_messages := (cnts.map (fun p => p.2)).sum
    start_time_us := timeB.1
    end_time_us := timeB.2.1
    duration_seconds := timeB.2.2
    max_altitude_m := altB.1
    min_altitude_m := altB.2.1
    avg_altitude_m := altB.2.2
    max_battery_voltage := battB.1
    min_battery_voltage := battB.2.1
    max_battery_temp := battB.2.2.1
    min_battery_temp := battB.2.2.2
    gps_fix_types := gpsB.1
    gps_loss_events := gpsB.2
    errors :=
      match s.lookup "ERR" with
      | some recs => some (recs.map fun r =>
          ⟨r.get "Subsys" 0, r.get "ECode" 0, r.get "TimeUS" 0⟩)
      | none => none
    mode_changes :=
      match s.lookup "MODE" with
      | some recs => some (recs.map fun r =>
          ⟨r.get "Mode" 0, r.get "ModeNum" 0, r.get "TimeUS" 0⟩)
      | none => none
    rc_loss_events :=
      match s.lookup "RCIN" with
      | some recs => some (rcLossScan recs)
      | none => none }

/-- One `altitude_anomalies` entry of `detect_anomalies`. -/
structure AltAnomaly where
  time_us : ℚ
  rate_m_per_s : ℚ
  altitude_change_m : ℚ
  severity : String
deriving DecidableEq, Repr

/-- One `battery_anomalies` entry of `detect_anomalies`. -/
structure BattAnomaly where
  time_us : ℚ
  voltage_drop : ℚ
  severity : String
deriving DecidableEq, Repr

/-- One `vibration_anomalies` entry of `detect_anomalies`. -/
structure VibeAnomaly where
  time_us : ℚ
  vibe_x : ℚ
  vibe_y : ℚ
  vibe_z : ℚ
  severity : String
deriving DecidableEq, Repr

/-- The result dict of `detect_anomalies` (`sudden_changes` is initialised
and never filled). -/
structure Anomalies where
  altitude_anomalies : List AltAnomaly
  battery_anomalies : List BattAnomaly
  gps_anomalies : List GpsLossEvent
  vibration_anomalies : List VibeAnomaly
  sudden_changes : List Unit
deriving DecidableEq

/-- The `(TimeUS, Alt)` sample list of the altitude scan; when `GPS` is not
a key the scan body is skipped, which coincides with scanning `[]`. -/
def altSamples (s : MsgStore) : List (ℚ × ℚ) :=
  (((s.lookup "GPS").getD []).filter (fun r => r.hasField "Alt")).map
    (fun r => (r.get "TimeUS" 0, r.get "Alt" 0))

/-- One iteration of the altitude pair loop: the anomalies contributed by
the pair `(prev, cur)`. -/
def altStep (prev cur : ℚ × ℚ) : List AltAnomaly :=
  let td := (cur.1 - prev.1) / 1000000
  let ad := cur.2 - prev.2
  if td > 0 then
    (if |ad / td| > 10 then
      [⟨cur.1, ad / td, ad, if |ad / td| > 20 then "high" else "medium"⟩]
     else [])
  else []

/-- The altitude pair loop from the sample following `prev` onwards. -/
def altScanFrom (prev : ℚ × ℚ) : List (ℚ × ℚ) → List AltAnomaly
  | [] => []
  | cur :: rest => altStep prev cur ++ altScanFrom cur rest

/-- The consecutive-pair loop of the altitude scan:
`for i in range(1, len(altitudes))`. -/
def altScan : List (ℚ × ℚ) → List AltAnomaly
  | [] => []
  | p :: rest => altScanFrom p rest

/-- The `(TimeUS, Volt)` sample list of the battery scan, empty when neither
`BAT` nor `BATT` is a key. -/
def battSamples (s : MsgStore) : List (ℚ × ℚ) :=
  match battKey s with
  | some k =>
      (((s.lookup k).getD []).filter (fun r => r.hasField "Volt")).map
        (fun r => (r.get "TimeUS" 0, r.get "Volt" 0))
  | none => []

/-- One iteration of the battery pair loop: the anomalies contributed by
the pair `(prev, cur)`. -/
def battStep (prev cur : ℚ × ℚ) : List BattAnomaly :=
  let vd := cur.2 - prev.2
  if vd < -(1/2) then
    [⟨cur.1, vd, if vd < -1 then "high" else "medium"⟩]
  else []

/-- The battery pair loop from the sample following `prev` onwards. -/
def battScanFrom (prev : ℚ × ℚ) : List (ℚ × ℚ) → List BattAnomaly
  | [] => []
  | cur :: rest => battStep prev cur ++ battScanFrom cur rest

/-- The consecutive-pair loop of the battery scan:
`for i in range(1, len(voltages))`. -/
def battScan : List (ℚ × ℚ) → List BattAnomaly
  | [] => []
  | p :: rest => battScanFrom p rest

/-- The vibration scan over `VIBE` records. -/
def vibeScan (recs : List Rec) : List VibeAnomaly :=
  recs.filterMap fun r =>
    let vx := r.get "VibeX" 0
    let vy := r.get "VibeY" 0
    let vz := r.get "VibeZ" 0
    if max vx (max vy vz) > 30 then
      some ⟨r.get "TimeUS" 0, vx, vy, vz,
            if max vx (max vy vz) > 60 then "high" else "medium"⟩
    else none

/-- `detect_anomalies`, reading `self.messages` and `self.metadata`
(`none` models the empty pre-parse metadata dict).  The GPS category uses
Python truthiness: `if self.metadata.get('gps_loss_events'):`. -/
def detect_anomalies (s : MsgStore) (m : Option Metadata) : Anomalies :=
  { altitude_anomalies := altScan (altSamples s)
    battery_anomalies := battScan (battSamples s)
    gps_anomalies :=
      match m with
      | some md =>
          match md.gps_loss_events with
          | some l => if l.isEmpty then [] else l
          | none => []
      | none => []
    vibration_anomalies := vibeScan ((s.lookup "VIBE").getD [])
    sudden_changes := [] }

/-- The whole mutable state of a `MAVLinkParser` instance (the `mlog`
handle is owned by the external decode collaborator and carries no core
state). -/
structure ParserState where
  file_path : String
  messages : MsgStore
  metadata : Option Metadata
  parsed : Bool
deriving DecidableEq

/-- `MAVLinkParser.__init__`. -/
def initState (fp : String) : ParserState :=
  { file_path := fp, messages := [], metadata := none, parsed := false }

/-- The external decode collaborator (§6): either the connection cannot be
opened, or it yields `items` (message-type tag and field dict each) and
then either exhausts normally or raises a structural error. -/
structure DecodeStream where
  openOk : Bool
  items : List (String × Rec)
  structFail : Bool
deriving DecidableEq

/-- `message_counts[t] += 1`: `none` models the `KeyError` raised when the
local counts dict has no entry for `t`. -/
def bumpCnt : List (String × ℕ) → String → Option (List (String × ℕ))
  | [], _ => none
  | (k, n) :: rest, t =>
      if k = t then some ((k, n + 1) :: rest)
      else (bumpCnt rest t).map (fun r => (k, n) :: r)

/-- The message loop of `_extract_all_messages`: threads `self.messages`
and the local `message_counts`; the `Bool` records whether the loop body
raised (`KeyError` on a count for a type present before this run), in
which case the remaining items are not consumed. -/
def extractLoop : MsgStore → List (String × ℕ) → List (String × Rec) →
    MsgStore × List (String × ℕ) × Bool
  | store, cnts, [] => (store, cnts, false)
  | store, cnts, (t, r) :: rest =>
      if t = "BAD_DATA" then extractLoop store cnts rest
      else
        let isNew := ¬ store.hasType t
        let store2 := store.addMsg t r
        let cnts2 := if isNew then cnts ++ [(t, 0)] else cnts
        match bumpCnt cnts2 t with
        | some cnts3 => extractLoop store2 cnts3 rest
        | none => (store2, cnts2, true)

/-- `get_summary`. -/
structure Summary where
  parsed : Bool
  file_path : String
  metadata : Option Metadata
  message_types : List String
  message_counts : List (String × ℕ)
deriving DecidableEq

/-- `get_summary`: `self.metadata.get('message_counts', {})` defaults to the
empty dict. -/
def get_summary (st : ParserState) : Summary :=
  { parsed := st.parsed
    file_path := st.file_path
    metadata := st.metadata
    message_types := st.messages.map (fun p => p.1)
    message_counts :=
      match st.metadata with
      | some md => md.message_counts
      | none => [] }

/-- `parse`: the early return when already parsed, the `try` body
(connection open, extraction, metadata, flag) and the `except` that wraps
any exception in a `ValueError`; mutations of `self` made before an
exception persist in the returned state. -/
def parse (st : ParserState) (d : DecodeStream) :
    Except String Summary × ParserState :=
  if st.parsed then (Except.ok (get_summary st), st)
  else if ¬ d.openOk then (Except.error "Failed to parse MAVLink log", st)
  else
    match extractLoop st.messages [] d.items with
    | (msgs, _, true) =>
        (Except.error "Failed to parse MAVLink log", { st with messages := msgs })
    | (msgs, cnts, false) =>
        if d.structFail then
          (Except.error "Failed to parse MAVLink log", { st with messages := msgs })
        else
          let st2 : ParserState :=
            { st with messages := msgs,
                      metadata := some (computeMetadata cnts msgs),
                      parsed := true }
          (Except.ok (get_summary st2), st2)

/-- Python slicing `l[:n]` for an integer `n`. -/
def pySliceTake (l : List Rec) (n : ℤ) : List Rec :=
  if 0 ≤ n then l.take n.toNat else l.take (l.length - (-n).toNat)

/-- `get_messages`: `if limit:` is Python truthiness, false for both `None`
and `0`. -/
def get_messages (s : MsgStore) (mtype : String) (limit : Option ℤ) :
    List Rec :=
  match s.lookup mtype with
  | none => []
  | some msgs =>
      match limit with
      | none => msgs
      | some n => if n = 0 then msgs else pySliceTake msgs n

/-- A value stored in the result dict of `query_data`. -/
inductive QVal where
  | null : QVal
  | num : ℚ → QVal
  | fixTypes : List ℚ → QVal
  | gpsEvents : List GpsLossEvent → QVal
  | errEvents : List ErrEvent → QVal
  | rcEvents : List RcLossEvent → QVal
deriving DecidableEq

/-- `self.metadata.get(k)` for a scalar metric: `None` when absent. -/
def optQ : Option ℚ → QVal
  | some v => QVal.num v
  | none => QVal.null

/-- `query_data` over `self.metadata` (`none` is the empty pre-parse dict);
the result is the assoc list of the result dict in key-insertion order. -/
def query_data (m : Option Metadata) (query : String) :
    List (String × QVal) :=
  let q := pyLower query
  (if strIn "altitude" q || strIn "height" q then
    (if strIn "max" q || strIn "highest" q then
      [("max_altitude_m", optQ (m.bind Metadata.max_altitude_m))] else []) ++
    (if strIn "min" q || strIn "lowest" q then
      [("min_altitude_m", optQ (m.bind Metadata.min_altitude_m))] else []) ++
    (if strIn "average" q || strIn "avg" q then
      [("avg_altitude_m", optQ (m.bind Metadata.avg_altitude_m))] else [])
   else []) ++
  (if strIn "battery" q || strIn "voltage" q then
    [("battery_voltage_max", optQ (m.bind Metadata.max_battery_voltage)),
     ("battery_voltage_min", optQ (m.bind Metadata.min_battery_voltage))]
   else []) ++
  (if strIn "temperature" q && strIn "battery" q then
    [("battery_temp_max", optQ (m.bind Metadata.max_battery_temp)),
     ("battery_temp_min", optQ (m.bind Metadata.min_battery_temp))]
   else []) ++
  (if strIn "gps" q then
    [("gps_loss_events", QVal.gpsEvents ((m.bind Metadata.gps_loss_events).getD [])),
     ("gps_fix_types", QVal.fixTypes ((m.bind Metadata.gps_fix_types).getD []))]
   else []) ++
  (if strIn "flight time" q || strIn "duration" q then
    [("duration_seconds", optQ (m.bind Metadata.duration_seconds)),
     ("duration_minutes", QVal.num (((m.bind Metadata.duration_seconds).getD 0) / 60))]
   else []) ++
  (if strIn "error" q then
    [("errors", QVal.errEvents ((m.bind Metadata.errors).getD []))]
   else []) ++
  (if strIn "rc" q || strIn "radio" q || strIn "signal loss" q then
    [("rc_loss_events", QVal.rcEvents ((m.bind Metadata.rc_loss_events).getD []))]
   else [])

/-- One row of the `get_time_series` data frame. -/
structure TsRow where
  time_us : ℚ
  value : ℚ
  time_seconds : ℚ
deriving DecidableEq, Repr

/-- `get_time_series`: `none` models the `None` returns (unknown type, or
no record carrying both `TimeUS` and the field). -/
def get_time_series (s : MsgStore) (mtype field : String) :
    Option (List TsRow) :=
  match s.lookup mtype with
  | none => none
  | some recs =>
      let data := ((recs.filter
          (fun r => r.hasField "TimeUS" && r.hasField field)).map
        (fun r => (r.get "TimeUS" 0, r.get field 0)))
      if data.isEmpty then none
      else some (data.map fun p => ⟨p.1, p.2, p.1 / 1000000⟩)

/-!
Specification-side transcriptions.  The following `spec…` definitions are
written from the specification's sentences (not from the source) and are
compared against the source-side scans above.
-/

/-- Spec transcription (altitude rule): for one consecutive pair, compute
vertical rate = (altitude delta) / (time delta in seconds), skip the pair
when the time delta is non-positive, flag when `|rate| > 10`, severity high
when `|rate| > 20`, else medium. -/
def specAltFlag (prev cur : ℚ × ℚ) : Option AltAnomaly :=
  let dt := (cur.1 - prev.1) / 1000000
  if dt ≤ 0 then none
  else
    let rate := (cur.2 - prev.2) / dt
    if |rate| > 10 then
      some ⟨cur.1, rate, cur.2 - prev.2, if |rate| > 20 then "high" else "medium"⟩
    else none

/-- Spec transcription: walk consecutive pairs of samples in arrival
order, applying the altitude rule to each. -/
def specAltScan (l : List (ℚ × ℚ)) : List AltAnomaly :=
  (l.zip l.tail).filterMap fun pc => specAltFlag pc.1 pc.2

/-- Spec transcription (battery rule): flag a voltage drop exceeding 0.5
units between consecutive samples, severity high when the drop exceeds
1.0, else medium; rises never flag. -/
def specBattFlag (prev cur : ℚ × ℚ) : Option BattAnomaly :=
  let drop := prev.2 - cur.2
  if drop > 1/2 then
    some ⟨cur.1, cur.2 - prev.2, if drop > 1 then "high" else "medium"⟩
  else none

/-- Spec transcription: walk consecutive pairs of voltage samples in
arrival order, applying the battery rule to each. -/
def specBattScan (l : List (ℚ × ℚ)) : List BattAnomaly :=
  (l.zip l.tail).filterMap fun pc => specBattFlag pc.1 pc.2

/-- Spec transcription (§4.5): the records of the given type that contain
both a timestamp and the requested field, in arrival order, projected to
(timestamp, value). -/
def specTsData (s : MsgStore) (mtype field : String) : List (ℚ × ℚ) :=
  (((s.lookup mtype).getD []).filter
      (fun r => r.hasField "TimeUS" && r.hasField field)).map
    (fun r => (r.get "TimeUS" 0, r.get field 0))

/-- Spec transcription (§4.4): the query triggers no keyword of the fixed
vocabulary (inner altitude qualifiers are irrelevant when neither
`altitude` nor `height` occurs, and `temperature` alone triggers nothing
without `battery`). -/
def matchesNoKeyword (query : String) : Bool :=
  let q := pyLower query
  !(strIn "altitude" q || strIn "height" q || strIn "battery" q ||
    strIn "voltage" q || strIn "gps" q || strIn "flight time" q ||
    strIn "duration" q || strIn "error" q || strIn "rc" q ||
    strIn "radio" q || strIn "signal loss" q)

/-!
Helper lemmas relating the source-side pair loops to the spec-side
consecutive-pair walks.
-/

theorem altStep_eq_specAltFlag (p c : ℚ × ℚ) :
    altStep p c = (specAltFlag p c).toList := by
  simp only [altStep, specAltFlag]
  split_ifs with h1 h2 h3 h4 h5 <;>
    simp_all [not_le, not_lt, le_of_lt] <;> try linarith

theorem specAltScan_cons (p c : ℚ × ℚ) (rest : List (ℚ × ℚ)) :
    specAltScan (p :: c :: rest) =
      (specAltFlag p c).toList ++ specAltScan (c :: rest) := by
  simp only [specAltScan, List.tail_cons, List.zip_cons_cons,
    List.filterMap_cons]
  cases specAltFlag p c <;> simp

theorem altScanFrom_eq_spec (l : List (ℚ × ℚ)) :
    ∀ p, altScanFrom p l = specAltScan (p :: l) := by
  induction l with
  | nil => intro p; rfl
  | cons c rest ih =>
      intro p
      rw [altScanFrom, specAltScan_cons, ih c, altStep_eq_specAltFlag]

theorem altScan_eq_spec (l : List (ℚ × ℚ)) : altScan l = specAltScan l := by
  cases l with
  | nil => rfl
  | cons p rest => rw [altScan, altScanFrom_eq_spec]

theorem battStep_eq_specBattFlag (p c : ℚ × ℚ) :
    battStep p c = (specBattFlag p c).toList := by
  simp only [battStep, specBattFlag]
  split_ifs with h1 h2 h3 h4 h5 <;> first
    | rfl
    | (exfalso; simp_all; linarith)

theorem specBattScan_cons (p c : ℚ × ℚ) (rest : List (ℚ × ℚ)) :
    specBattScan (p :: c :: rest) =
      (specBattFlag p c).toList ++ specBattScan (c :: rest) := by
  simp only [specBattScan, List.tail_cons, List.zip_cons_cons,
    List.filterMap_cons]
  cases specBattFlag p c <;> simp

theorem battScanFrom_eq_spec (l : List (ℚ × ℚ)) :
    ∀ p, battScanFrom p l = specBattScan (p :: l) := by
  induction l with
  | nil => intro p; rfl
  | cons c rest ih =>
      intro p
      rw [battScanFrom, specBattScan_cons, ih c, battStep_eq_specBattFlag]

theorem battScan_eq_spec (l : List (ℚ × ℚ)) : battScan l = specBattScan l := by
  cases l with
  | nil => rfl
  | cons p rest => rw [battScan, battScanFrom_eq_spec]

/-- The three-record GPS log of the claim: timestamps `[0, 1000000,
3000000]` µs, altitudes `[10, 15, 100]`. -/
def altExampleStore : MsgStore :=
  [("GPS", [[("TimeUS", 0), ("Alt", 10)],
            [("TimeUS", 1000000), ("Alt", 15)],
            [("TimeUS", 3000000), ("Alt", 100)]])]

/-- C1: the altitude anomaly scan of `detect_anomalies` walks consecutive
pairs of GPS altitude samples in arrival order, computes rate =
(altitude delta)/(time delta in seconds), skips pairs with non-positive
time delta, flags exactly when `|rate| > 10` with severity high exactly
when `|rate| > 20` (medium otherwise); on the log with GPS timestamps
`[0, 1000000, 3000000]` µs and altitudes `[10, 15, 100]`, exactly the pair
ending at 3000000 is flagged (rate 42.5, high) and the pair ending at
1000000 (rate 5) is not. -/
theorem altitude_anomalies_spec :
    (∀ (s : MsgStore) (m : Option Metadata),
        (detect_anomalies s m).altitude_anomalies =
          specAltScan (altSamples s)) ∧
    (∀ (m : Option Metadata),
        (detect_anomalies altExampleStore m).altitude_anomalies =
          [⟨3000000, 85/2, 85, "high"⟩]) := by
  constructor
  · intro s m
    simp only [detect_anomalies]
    rw [altScan_eq_spec]
  · intro m
    simp only [detect_anomalies]
    have h : altSamples altExampleStore =
        [(0, 10), (1000000, 15), (3000000, 100)] := rfl
    rw [h]
    norm_num [altScan, altScanFrom, altStep, abs_of_pos, abs_of_nonneg]

/-- The three-record battery log of the claim: voltages
`[12.6, 12.5, 11.8]` at distinct timestamps. -/
def battExampleStore : MsgStore :=
  [("BAT", [[("TimeUS", 0), ("Volt", 12.6)],
            [("TimeUS", 1000000), ("Volt", 12.5)],
            [("TimeUS", 2000000), ("Volt", 11.8)]])]

/-- C2: the battery anomaly scan of `detect_anomalies` resolves the
battery message type preferring `BAT` with fallback `BATT`, walks
consecutive pairs of voltage samples in arrival order, flags exactly when
the drop between the two samples exceeds 0.5 units with severity high
exactly when the drop exceeds 1.0 (medium otherwise), never flags a rise;
and on voltages `[12.6, 12.5, 11.8]` exactly the drop from 12.5 to 11.8
is flagged, medium. -/
theorem battery_anomalies_spec :
    (∀ (s : MsgStore) (m : Option Metadata),
        (detect_anomalies s m).battery_anomalies =
          specBattScan (battSamples s)) ∧
    (∀ (s : MsgStore), s.hasType "BAT" = true → battKey s = some "BAT") ∧
    (∀ (s : MsgStore), s.hasType "BAT" = false → s.hasType "BATT" = true →
        battKey s = some "BATT") ∧
    (∀ p c : ℚ × ℚ, p.2 ≤ c.2 → battStep p c = []) ∧
    (∀ (m : Option Metadata),
        (detect_anomalies battExampleStore m).battery_anomalies =
          [⟨2000000, -(7/10), "medium"⟩]) := by
  refine ⟨?_, ?_, ?_, ?_, ?_⟩
  · intro s m
    simp only [detect_anomalies]
    rw [battScan_eq_spec]
  · intro s h
    simp [battKey, h]
  · intro s h1 h2
    simp [battKey, h1, h2]
  · intro p c h
    have hvd : ¬ (c.2 - p.2 < -(1/2)) := by linarith
    simp only [battStep, hvd, if_false]
  · intro m
    simp only [detect_anomalies]
    have h : battSamples battExampleStore =
        [(0, 12.6), (1000000, 12.5), (2000000, 11.8)] := rfl
    rw [h]
    norm_num [battScan, battScanFrom, battStep]

/-- Witness for the hypothesised conjuncts of `battery_anomalies_spec`:
alias resolution with both keys, with only `BATT`, and a rise pair. -/
theorem battery_anomalies_spec_witness :
    battKey [("BAT", []), ("BATT", [])] = some "BAT" ∧
    battKey [("BATT", [])] = some "BATT" ∧
    battStep (0, 12) (1, 13) = [] :=
  ⟨battery_anomalies_spec.2.1 [("BAT", []), ("BATT", [])] rfl,
   battery_anomalies_spec.2.2.1 [("BATT", [])] rfl rfl,
   battery_anomalies_spec.2.2.2.1 (0, 12) (1, 13) (by norm_num)⟩

/-- Ten GPS records whose `Status` is 3 except at indices 4 (status 2)
and 9 (status 0); `TimeUS` of record `i` is `100 i`. -/
def gpsStatusExampleStore : MsgStore :=
  [("GPS", [[("TimeUS", 0), ("Status", 3)],
            [("TimeUS", 100), ("Status", 3)],
            [("TimeUS", 200), ("Status", 3)],
            [("TimeUS", 300), ("Status", 3)],
            [("TimeUS", 400), ("Status", 2)],
            [("TimeUS", 500), ("Status", 3)],
            [("TimeUS", 600), ("Status", 3)],
            [("TimeUS", 700), ("Status", 3)],
            [("TimeUS", 800), ("Status", 3)],
            [("TimeUS", 900), ("Status", 0)]])]

/-- C3: with GPS records present, the metadata extractor stores one
GPS-loss event per record whose status is below 3, carrying the record's
positional index, timestamp and status (membership characterisation);
the GPS category of `detect_anomalies` is that metadata list verbatim;
and on the ten-record example with sub-3 statuses only at indices 4 and 9
the events are exactly those two indices. -/
theorem gps_loss_events_spec :
    (∀ (cnts : List (String × ℕ)) (s : MsgStore) (recs : List Rec),
        s.lookup "GPS" = some recs →
        (computeMetadata cnts s).gps_loss_events = some (gpsLossScan recs)) ∧
    (∀ (recs : List Rec) (e : GpsLossEvent),
        e ∈ gpsLossScan recs ↔
          ∃ r, recs[e.index]? = some r ∧ r.get "Status" 0 < 3 ∧
            e.time_us = r.get "TimeUS" 0 ∧ e.status = r.get "Status" 0) ∧
    (∀ (s : MsgStore) (md : Metadata) (l : List GpsLossEvent),
        md.gps_loss_events = some l →
        (detect_anomalies s (some md)).gps_anomalies = l) ∧
    ((computeMetadata [("GPS", 10)] gpsStatusExampleStore).gps_loss_events =
        some [⟨4, 400, 2⟩, ⟨9, 900, 0⟩]) := by
  refine ⟨?_, ?_, ?_, ?_⟩
  · intro cnts s recs h
    simp [computeMetadata, h]
  · intro recs e
    constructor
    · intro he
      rcases List.mem_filterMap.mp he with ⟨⟨i, r⟩, hmem, hf⟩
      by_cases hs : r.get "Status" 0 < 3
      · rw [if_pos hs] at hf
        rcases Option.some.inj hf with rfl
        exact ⟨r, List.mk_mem_enum_iff_getElem?.mp hmem, hs, rfl, rfl⟩
      · rw [if_neg hs] at hf
        cases hf
    · obtain ⟨i, t, st⟩ := e
      rintro ⟨r, hr, hs, ht, hst⟩
      apply List.mem_filterMap.mpr
      refine ⟨(i, r), List.mk_mem_enum_iff_getElem?.mpr hr, ?_⟩
      rw [if_pos hs]
      simp only at ht hst
      rw [ht, hst]
  · intro s md l h
    simp only [detect_anomalies, h]
    cases l with
    | nil => simp
    | cons a rest => simp [List.isEmpty]
  · rfl

/-- Witness for the hypothesised conjuncts of `gps_loss_events_spec`: a
concrete single-record store, and `detect_anomalies` on the ten-record
example. -/
theorem gps_loss_events_spec_witness :
    (computeMetadata [("GPS", 1)]
        [("GPS", [[("TimeUS", 7), ("Status", 1)]])]).gps_loss_events =
      some (gpsLossScan [[("TimeUS", 7), ("Status", 1)]]) ∧
    (detect_anomalies []
        (some (computeMetadata [("GPS", 10)] gpsStatusExampleStore))).gps_anomalies =
      [⟨4, 400, 2⟩, ⟨9, 900, 0⟩] :=
  ⟨gps_loss_events_spec.1 [("GPS", 1)] [("GPS", [[("TimeUS", 7), ("Status", 1)]])]
      [[("TimeUS", 7), ("Status", 1)]] rfl,
   gps_loss_events_spec.2.2.1 [] (computeMetadata [("GPS", 10)] gpsStatusExampleStore)
      [⟨4, 400, 2⟩, ⟨9, 900, 0⟩] gps_loss_events_spec.2.2.2⟩

theorem pyMin_spec (l : List ℚ) (h : l ≠ []) :
    pyMin l ∈ l ∧ ∀ x ∈ l, pyMin l ≤ x := by
  match l with
  | x :: xs =>
    have hm : (x :: xs).min? = some (pyMin (x :: xs)) := rfl
    refine ⟨List.min?_mem (fun a b => min_choice a b) hm, fun y hy => ?_⟩
    exact (List.le_min?_iff (fun a b c => le_min_iff) hm).mp (le_refl _) y hy

theorem pyMax_spec (l : List ℚ) (h : l ≠ []) :
    pyMax l ∈ l ∧ ∀ x ∈ l, x ≤ pyMax l := by
  match l with
  | x :: xs =>
    have hm : (x :: xs).max? = some (pyMax (x :: xs)) := rfl
    refine ⟨List.max?_mem (fun a b => max_choice a b) hm, fun y hy => ?_⟩
    exact (List.max?_le_iff (fun a b c => max_le_iff) hm).mp (le_refl _) y hy

/-- Two GPS records with timestamps 5 and 2 µs. -/
def timeExampleStore : MsgStore :=
  [("GPS", [[("TimeUS", 5)], [("TimeUS", 2)]])]

/-- C4: with GPS records present, the metadata start time is the minimum
and the end time the maximum of the `TimeUS` field over the GPS records
(`pyMin`/`pyMax` are characterised as genuine minimum and maximum), and
duration is (max − min)/1,000,000 seconds; with GPS absent, all three
metrics are omitted (`none`), never a zero placeholder. -/
theorem time_bounds_spec :
    (∀ (cnts : List (String × ℕ)) (s : MsgStore) (recs : List Rec),
        s.lookup "GPS" = some recs → recs ≠ [] →
        (computeMetadata cnts s).start_time_us =
            some (pyMin (recs.map (fun r => r.get "TimeUS" 0))) ∧
        (computeMetadata cnts s).end_time_us =
            some (pyMax (recs.map (fun r => r.get "TimeUS" 0))) ∧
        (computeMetadata cnts s).duration_seconds =
            some ((pyMax (recs.map (fun r => r.get "TimeUS" 0)) -
                   pyMin (recs.map (fun r => r.get "TimeUS" 0))) / 1000000)) ∧
    (∀ (l : List ℚ), l ≠ [] → pyMin l ∈ l ∧ ∀ x ∈ l, pyMin l ≤ x) ∧
    (∀ (l : List ℚ), l ≠ [] → pyMax l ∈ l ∧ ∀ x ∈ l, x ≤ pyMax l) ∧
    (∀ (cnts : List (String × ℕ)) (s : MsgStore),
        s.lookup "GPS" = none →
        (computeMetadata cnts s).start_time_us = none ∧
        (computeMetadata cnts s).end_time_us = none ∧
        (computeMetadata cnts s).duration_seconds = none) := by
  refine ⟨?_, pyMin_spec, pyMax_spec, ?_⟩
  · intro cnts s recs h hne
    have hlen : recs.length > 0 := List.length_pos.mpr hne
    have hts : recs.map (fun r => r.get "TimeUS" 0) ≠ [] := by
      simp [hne]
    simp [computeMetadata, h, hlen, hts]
  · intro cnts s h
    simp [computeMetadata, h]

/-- Witness for `time_bounds_spec`: both the GPS-present and GPS-absent
cases at concrete stores, and the min/max characterisations on `[5, 2]`. -/
theorem time_bounds_spec_witness :
    (computeMetadata [("GPS", 2)] timeExampleStore).duration_seconds =
      some (3/1000000) ∧
    pyMin [(5:ℚ), 2] ∈ [(5:ℚ), 2] ∧
    pyMax [(5:ℚ), 2] ∈ [(5:ℚ), 2] ∧
    (computeMetadata [] []).start_time_us = none := by
  refine ⟨?_, ?_, ?_, ?_⟩
  · have h := (time_bounds_spec.1 [("GPS", 2)] timeExampleStore
      [[("TimeUS", 5)], [("TimeUS", 2)]] rfl (by simp)).2.2
    rw [h]
    norm_num [pyMin, pyMax, Rec.get, List.lookup]
  · exact (time_bounds_spec.2.1 [(5:ℚ), 2] (by simp)).1
  · exact (time_bounds_spec.2.2.1 [(5:ℚ), 2] (by simp)).1
  · exact (time_bounds_spec.2.2.2 [] [] rfl).1

/-- The two RCIN records of the claim: all channels 850, and a mixed
record whose first channel is 1500. -/
def rcRecsExample : List Rec :=
  [[("TimeUS", 5), ("C1", 850), ("C2", 850), ("C3", 850), ("C4", 850),
    ("C5", 850), ("C6", 850), ("C7", 850), ("C8", 850)],
   [("TimeUS", 6), ("C1", 1500), ("C2", 850), ("C3", 850), ("C4", 850),
    ("C5", 850), ("C6", 850), ("C7", 850), ("C8", 850)]]

def rcExampleStore : MsgStore := [("RCIN", rcRecsExample)]

/-- C5: with RCIN records present, the metadata extractor reads the 8
channel fields `C1`…`C8` per record and records an RC-loss event (index
and timestamp) exactly when every one of the 8 channel values is below
900; the all-850 record is a loss event and the mixed `[1500, 850, …]`
record is not. -/
theorem rc_loss_events_spec :
    (∀ (cnts : List (String × ℕ)) (s : MsgStore) (recs : List Rec),
        s.lookup "RCIN" = some recs →
        (computeMetadata cnts s).rc_loss_events = some (rcLossScan recs)) ∧
    (∀ (r : Rec), rcChannels r =
        [r.get "C1" 0, r.get "C2" 0, r.get "C3" 0, r.get "C4" 0,
         r.get "C5" 0, r.get "C6" 0, r.get "C7" 0, r.get "C8" 0]) ∧
    (∀ (recs : List Rec) (e : RcLossEvent),
        e ∈ rcLossScan recs ↔
          ∃ r, recs[e.index]? = some r ∧ (∀ c ∈ rcChannels r, c < 900) ∧
            e.time_us = r.get "TimeUS" 0) ∧
    ((computeMetadata [("RCIN", 2)] rcExampleStore).rc_loss_events =
        some [⟨0, 5⟩]) := by
  refine ⟨?_, ?_, ?_, ?_⟩
  · intro cnts s recs h
    simp [computeMetadata, h]
  · intro r
    rfl
  · intro recs e
    constructor
    · intro he
      rcases List.mem_filterMap.mp he with ⟨⟨i, r⟩, hmem, hf⟩
      by_cases hc : (rcChannels r).all (fun c => decide (c < 900)) = true
      · rw [if_pos hc] at hf
        rcases Option.some.inj hf with rfl
        refine ⟨r, List.mk_mem_enum_iff_getElem?.mp hmem, ?_, rfl⟩
        intro c hcm
        exact of_decide_eq_true (List.all_eq_true.mp hc c hcm)
      · rw [if_neg hc] at hf
        cases hf
    · obtain ⟨i, t⟩ := e
      rintro ⟨r, hr, hc, ht⟩
      apply List.mem_filterMap.mpr
      have hall : (rcChannels r).all (fun c => decide (c < 900)) = true :=
        List.all_eq_true.mpr (fun c hcm => decide_eq_true (hc c hcm))
      refine ⟨(i, r), List.mk_mem_enum_iff_getElem?.mpr hr, ?_⟩
      rw [if_pos hall]
      simp only at ht
      rw [ht]
  · rfl

/-- Witness for the hypothesised conjuncts of `rc_loss_events_spec`. -/
theorem rc_loss_events_spec_witness :
    (computeMetadata [("RCIN", 2)] rcExampleStore).rc_loss_events =
      some (rcLossScan rcRecsExample) ∧
    rcChannels [] = [0, 0, 0, 0, 0, 0, 0, 0] := by
  refine ⟨rc_loss_events_spec.1 [("RCIN", 2)] rcExampleStore rcRecsExample rfl, ?_⟩
  rw [rc_loss_events_spec.2.1]
  rfl

theorem lookup_cons_ne {β : Type} {k a : String} (b : β)
    (es : List (String × β)) (h : ¬ a = k) :
    ((k, b) :: es).lookup a = es.lookup a := by
  rw [List.lookup_cons, beq_false_of_ne h]

theorem lookup_append_single (cnts : List (String × ℕ)) (t t2 : String) :
    (List.lookup t2 (cnts ++ [(t, 0)])).isSome = true ↔
      (List.lookup t2 cnts).isSome = true ∨ t2 = t := by
  induction cnts with
  | nil =>
      by_cases h : t2 = t
      · subst h
        simp
      · rw [List.nil_append, lookup_cons_ne _ _ h]
        simp [h]
  | cons p rest ih =>
      obtain ⟨k, n⟩ := p
      by_cases h : t2 = k
      · subst h
        simp
      · rw [List.cons_append, lookup_cons_ne _ _ h, lookup_cons_ne _ _ h]
        exact ih

theorem bumpCnt_eq_none_iff (cnts : List (String × ℕ)) (t : String) :
    bumpCnt cnts t = none ↔ List.lookup t cnts = none := by
  induction cnts with
  | nil => simp [bumpCnt]
  | cons p rest ih =>
      obtain ⟨k, n⟩ := p
      by_cases h : k = t
      · subst h
        rw [bumpCnt, if_pos rfl]
        simp
      · have h2 : ¬ t = k := fun hh => h hh.symm
        rw [bumpCnt, if_neg h, lookup_cons_ne _ _ h2, Option.map_eq_none']
        exact ih

theorem bumpCnt_lookup_isSome (t t2 : String) :
    ∀ (cnts cnts2 : List (String × ℕ)), bumpCnt cnts t = some cnts2 →
      (List.lookup t2 cnts2).isSome = (List.lookup t2 cnts).isSome := by
  intro cnts
  induction cnts with
  | nil => intro cnts2 h; cases h
  | cons p rest ih =>
      obtain ⟨k, n⟩ := p
      intro cnts2 h
      by_cases hk : k = t
      · rw [bumpCnt, if_pos hk] at h
        rcases Option.some.inj h with rfl
        by_cases h2 : t2 = k
        · subst h2
          simp
        · rw [lookup_cons_ne _ _ h2, lookup_cons_ne _ _ h2]
      · rw [bumpCnt, if_neg hk] at h
        rcases Option.map_eq_some'.mp h with ⟨r2, hr2, rfl⟩
        by_cases h2 : t2 = k
        · subst h2
          simp
        · rw [lookup_cons_ne _ _ h2, lookup_cons_ne _ _ h2]
          exact ih r2 hr2

theorem hasType_addMsg (t t2 : String) (r : Rec) :
    ∀ (s : MsgStore), (s.addMsg t r).hasType t2 = true ↔
      s.hasType t2 = true ∨ t2 = t := by
  intro s
  induction s with
  | nil =>
      simp only [MsgStore.addMsg, MsgStore.hasType, MsgStore.lookup]
      by_cases h : t2 = t
      · subst h
        simp
      · rw [lookup_cons_ne _ _ h]
        simp [h]
  | cons p rest ih =>
      obtain ⟨t0, rs⟩ := p
      simp only [MsgStore.hasType, MsgStore.lookup] at ih ⊢
      by_cases h0 : t0 = t
      · subst h0
        rw [MsgStore.addMsg, if_pos rfl]
        by_cases h2 : t2 = t0
        · subst h2
          simp
        · rw [lookup_cons_ne _ _ h2, lookup_cons_ne _ _ h2]
          simp [h2]
      · rw [MsgStore.addMsg, if_neg h0]
        by_cases h2 : t2 = t0
        · subst h2
          simp
        · rw [lookup_cons_ne _ _ h2, lookup_cons_ne _ _ h2]
          exact ih

theorem extractLoop_cons_eq (store : MsgStore) (cnts : List (String × ℕ))
    (t : String) (r : Rec) (rest : List (String × Rec))
    (hbad : ¬ t = "BAD_DATA") :
    extractLoop store cnts ((t, r) :: rest) =
      (let cnts2 :=
        if ¬ store.hasType t = true then cnts ++ [(t, 0)] else cnts
       match bumpCnt cnts2 t with
       | some cnts3 => extractLoop (store.addMsg t r) cnts3 rest
       | none => (store.addMsg t r, cnts2, true)) := by
  rw [extractLoop, if_neg hbad]

/-- From a state whose count dict covers every stored type, the extraction
loop never raises; in particular it never raises on a fresh instance. -/
theorem extractLoop_no_raise :
    ∀ (items : List (String × Rec)) (store : MsgStore)
      (cnts : List (String × ℕ)),
      (∀ t, store.hasType t = true → (List.lookup t cnts).isSome = true) →
      (extractLoop store cnts items).2.2 = false := by
  intro items
  induction items with
  | nil => intro store cnts hinv; rfl
  | cons item rest ih =>
      obtain ⟨t, r⟩ := item
      intro store cnts hinv
      by_cases hbad : t = "BAD_DATA"
      · rw [extractLoop, if_pos hbad]
        exact ih store cnts hinv
      · rw [extractLoop_cons_eq store cnts t r rest hbad]
        by_cases hnew : store.hasType t = true
        · have hiN : ¬ ¬ (store.hasType t = true) := fun hh => hh hnew
          simp only [if_neg hiN]
          have hsome : (List.lookup t cnts).isSome = true := hinv t hnew
          have hne : bumpCnt cnts t ≠ none := fun hh =>
            (Option.isSome_iff_ne_none.mp hsome)
              ((bumpCnt_eq_none_iff cnts t).mp hh)
          cases hc3 : bumpCnt cnts t with
          | none => exact absurd hc3 hne
          | some c3 =>
              show (extractLoop (store.addMsg t r) c3 rest).2.2 = false
              apply ih
              intro t2 ht2
              rw [bumpCnt_lookup_isSome t t2 cnts c3 hc3]
              rcases (hasType_addMsg t t2 r store).mp ht2 with h | h
              · exact hinv t2 h
              · subst h
                exact hsome
        · simp only [if_pos hnew]
          have hsome : (List.lookup t (cnts ++ [(t, 0)])).isSome = true :=
            (lookup_append_single cnts t t).mpr (Or.inr rfl)
          have hne : bumpCnt (cnts ++ [(t, 0)]) t ≠ none := fun hh =>
            (Option.isSome_iff_ne_none.mp hsome)
              ((bumpCnt_eq_none_iff _ t).mp hh)
          cases hc3 : bumpCnt (cnts ++ [(t, 0)]) t with
          | none => exact absurd hc3 hne
          | some c3 =>
              show (extractLoop (store.addMsg t r) c3 rest).2.2 = false
              apply ih
              intro t2 ht2
              rw [bumpCnt_lookup_isSome t t2 _ c3 hc3]
              rcases (hasType_addMsg t t2 r store).mp ht2 with h | h
              · exact (lookup_append_single cnts t t2).mpr
                  (Or.inl (hinv t2 h))
              · subst h
                exact hsome

/-- A decode stream that yields one GPS record and then raises a
structural error. -/
def failDemoStream : DecodeStream :=
  { openOk := true
    items := [("GPS", [("TimeUS", 0), ("Alt", 10)])]
    structFail := true }

/-- C6 counterexample: on a stream that decodes one GPS record and then
fails structurally, `parse` propagates the error, yet `get_messages`
afterwards returns the record decoded before the failure point and the
instance state differs from its pre-`parse` state — refuting "no partial
store is exposed". -/
theorem parse_failure_claim_counterexample :
    (parse (initState "log.bin") failDemoStream).1 =
        Except.error "Failed to parse MAVLink log" ∧
    get_messages (parse (initState "log.bin") failDemoStream).2.messages
        "GPS" none = [[("TimeUS", 0), ("Alt", 10)]] ∧
    (parse (initState "log.bin") failDemoStream).2 ≠ initState "log.bin" := by
  refine ⟨rfl, rfl, ?_⟩
  intro h
  have h2 := congrArg ParserState.messages h
  have h3 : (parse (initState "log.bin") failDemoStream).2.messages =
      [("GPS", [[("TimeUS", 0), ("Alt", 10)]])] := rfl
  rw [h3] at h2
  cases h2

/-- C6 amended: when the decode stream cannot be opened, `parse` fails and
the state is unchanged; when the stream opens but terminates with a
structural error, `parse` propagates the error and aborts (parsed flag
false, no metadata), but the records decoded before the failure point
remain stored, and `get_messages` reads the store directly. -/
theorem parse_failure_spec :
    (∀ (st : ParserState) (d : DecodeStream), st.parsed = false →
        d.openOk = false →
        parse st d = (Except.error "Failed to parse MAVLink log", st)) ∧
    (∀ (fp : String) (d : DecodeStream), d.openOk = true →
        d.structFail = true →
        (parse (initState fp) d).1 =
            Except.error "Failed to parse MAVLink log" ∧
        (parse (initState fp) d).2.parsed = false ∧
        (parse (initState fp) d).2.metadata = none ∧
        (parse (initState fp) d).2.messages =
            (extractLoop [] [] d.items).1) ∧
    (∀ (s : MsgStore) (t : String),
        get_messages s t none = (s.lookup t).getD []) := by
  refine ⟨?_, ?_, ?_⟩
  · intro st d h1 h2
    simp [parse, h1, h2]
  · intro fp d h1 h2
    have hinv : ∀ t, (MsgStore.hasType [] t = true) →
        ((List.lookup t ([] : List (String × ℕ))).isSome = true) := by
      intro t h
      simp [MsgStore.hasType, MsgStore.lookup] at h
    have hnr := extractLoop_no_raise d.items [] [] hinv
    rcases hE : extractLoop [] [] d.items with ⟨msgs, cnts, b⟩
    rw [hE] at hnr
    simp only at hnr
    subst hnr
    simp [parse, initState, h1, h2, hE]
  · intro s t
    cases hl : s.lookup t with
    | none => simp [get_messages, hl]
    | some msgs => simp [get_messages, hl]

/-- Witness for `parse_failure_spec`: the open-failure case, the
structural-failure case, and a lookup on the empty store. -/
theorem parse_failure_spec_witness :
    parse (initState "a.bin") ⟨false, [], false⟩ =
      (Except.error "Failed to parse MAVLink log", initState "a.bin") ∧
    (parse (initState "b.bin") ⟨true, [("GPS", [("Alt", 1)])], true⟩).2.metadata
      = none ∧
    get_messages [] "GPS" none = [] :=
  ⟨parse_failure_spec.1 (initState "a.bin") ⟨false, [], false⟩ rfl rfl,
   (parse_failure_spec.2.1 "b.bin" ⟨true, [("GPS", [("Alt", 1)])], true⟩
      rfl rfl).2.2.1,
   parse_failure_spec.2.2 [] "GPS"⟩

/-- C7: the query resolver matches keywords case-insensitively as
substrings; the query "what was the max altitude" returns exactly the
single key `max_altitude_m` drawn from metadata; a query triggering no
keyword returns the empty mapping; and an upper-case variant of the query
resolves identically. -/
theorem query_resolver_spec :
    (∀ (m : Option Metadata),
        query_data m "what was the max altitude" =
          [("max_altitude_m", optQ (m.bind Metadata.max_altitude_m))]) ∧
    (∀ (m : Option Metadata) (q : String), matchesNoKeyword q = true →
        query_data m q = []) ∧
    (∀ (m : Option Metadata),
        query_data m "WHAT WAS THE MAX ALTITUDE" =
          query_data m "what was the max altitude") := by
  refine ⟨?_, ?_, ?_⟩
  · intro m
    rfl
  · intro m q h
    simp only [matchesNoKeyword, Bool.not_eq_true', Bool.or_eq_false_iff] at h
    obtain ⟨⟨⟨⟨⟨⟨⟨⟨⟨⟨h1, h2⟩, h3⟩, h4⟩, h5⟩, h6⟩, h7⟩, h8⟩, h9⟩, h10⟩, h11⟩ := h
    simp [query_data, h1, h2, h3, h4, h5, h6, h7, h8, h9, h10, h11]
  · intro m
    rfl

/-- Witness for `query_resolver_spec`: the keyword-free query "hello". -/
theorem query_resolver_spec_witness :
    matchesNoKeyword "hello" = true ∧ query_data none "hello" = [] :=
  ⟨by decide, query_resolver_spec.2.1 none "hello" (by decide)⟩

/-- C8: time-series extraction returns the absence marker `none` exactly
when the message type is unknown or no record of the type carries both
`TimeUS` and the requested field; otherwise it returns precisely the
arrival-ordered (timestamp, value) pairs of the records carrying both
fields — never a default-valued series. -/
theorem time_series_spec :
    (∀ (s : MsgStore) (mtype field : String),
        (get_time_series s mtype field = none ↔
          s.lookup mtype = none ∨ specTsData s mtype field = [])) ∧
    (∀ (s : MsgStore) (mtype field : String) (rows : List TsRow),
        get_time_series s mtype field = some rows →
        rows = (specTsData s mtype field).map
          (fun p => ⟨p.1, p.2, p.1 / 1000000⟩)) := by
  constructor
  · intro s mtype field
    cases hl : s.lookup mtype with
    | none => simp [get_time_series, hl]
    | some recs =>
        simp only [get_time_series, hl, specTsData, Option.getD_some]
        by_cases he :
            ((recs.filter (fun r => r.hasField "TimeUS" && r.hasField field)).map
              (fun r => (r.get "TimeUS" 0, r.get field 0))) = []
        · simp [he]
        · simp [he, List.isEmpty_iff]
  · intro s mtype field rows h
    cases hl : s.lookup mtype with
    | none => rw [get_time_series, hl] at h; cases h
    | some recs =>
        simp only [get_time_series, hl] at h
        by_cases he :
            ((recs.filter (fun r => r.hasField "TimeUS" && r.hasField field)).map
              (fun r => (r.get "TimeUS" 0, r.get field 0))) = []
        · rw [if_pos (by simp [he, List.isEmpty_iff])] at h
          cases h
        · rw [if_neg (by simp [List.isEmpty_iff, he])] at h
          rcases Option.some.inj h with rfl
          simp [specTsData, hl]

/-- Witness for `time_series_spec`: a one-record store carrying both
fields. -/
theorem time_series_spec_witness :
    get_time_series [("GPS", [[("TimeUS", 1), ("Alt", 5)]])] "GPS" "Alt" =
      some [⟨1, 5, 1/1000000⟩] ∧
    ([⟨1, 5, 1/1000000⟩] : List TsRow) =
      (specTsData [("GPS", [[("TimeUS", 1), ("Alt", 5)]])] "GPS" "Alt").map
        (fun p => ⟨p.1, p.2, p.1 / 1000000⟩) := by
  have h1 : get_time_series [("GPS", [[("TimeUS", 1), ("Alt", 5)]])]
      "GPS" "Alt" = some [⟨1, 5, 1/1000000⟩] := rfl
  exact ⟨h1, time_series_spec.2 _ "GPS" "Alt" _ h1⟩

/-- C9: ingestion is idempotent — after a successful `parse`, calling
`parse` again on the resulting instance (with any decode stream) returns
the same summary, hence the same metadata, and leaves the state
untouched. -/
theorem parse_idempotent :
    ∀ (st : ParserState) (d d2 : DecodeStream) (r : Summary)
      (st2 : ParserState),
      parse st d = (Except.ok r, st2) → parse st2 d2 = (Except.ok r, st2) := by
  intro st d d2 r st2 h
  rw [parse] at h
  split at h
  · injection h with h1 h2
    injection h1 with h1
    subst h2
    rw [parse]
    rw [if_pos (by assumption)]
    rw [h1]
  · split at h
    · injection h with h1 h2
      exact Except.noConfusion h1
    · split at h
      · injection h with h1 h2
        exact Except.noConfusion h1
      · split at h
        · injection h with h1 h2
          exact Except.noConfusion h1
        · injection h with h1 h2
          injection h1 with h1
          subst h2
          subst h1
          rw [parse]
          rw [if_pos rfl]

/-- Witness for `parse_idempotent`: a concrete successful parse re-run on
the resulting state. -/
theorem parse_idempotent_witness :
    parse (parse (initState "c.bin") ⟨true, [], false⟩).2 ⟨true, [], false⟩ =
      (Except.ok (get_summary (parse (initState "c.bin") ⟨true, [], false⟩).2),
       (parse (initState "c.bin") ⟨true, [], false⟩).2) :=
  parse_idempotent (initState "c.bin") ⟨true, [], false⟩ ⟨true, [], false⟩
    (get_summary (parse (initState "c.bin") ⟨true, [], false⟩).2)
    (parse (initState "c.bin") ⟨true, [], false⟩).2 rfl

theorem take_min_length {α : Type} (l : List α) (n : ℕ) :
    l.take (min n l.length) = l.take n := by
  rcases Nat.le_total n l.length with h | h
  · rw [Nat.min_eq_left h]
  · rw [Nat.min_eq_right h, List.take_length, List.take_of_length_le h]

/-- C10: `get_messages` with limit 0 returns the complete arrival-ordered
record list (the zero limit is ignored by the Python truthiness test), a
positive limit `n` returns exactly the first `min(n, count)` records, an
absent message type yields `[]`, and an absent limit returns everything. -/
theorem get_messages_limit_spec :
    (∀ (s : MsgStore) (mtype : String) (msgs : List Rec),
        s.lookup mtype = some msgs →
        get_messages s mtype (some 0) = msgs) ∧
    (∀ (s : MsgStore) (mtype : String) (msgs : List Rec) (n : ℤ),
        s.lookup mtype = some msgs → 0 < n →
        get_messages s mtype (some n) =
          msgs.take (min n.toNat msgs.length)) ∧
    (∀ (s : MsgStore) (mtype : String) (limit : Option ℤ),
        s.lookup mtype = none → get_messages s mtype limit = []) ∧
    (∀ (s : MsgStore) (mtype : String) (msgs : List Rec),
        s.lookup mtype = some msgs →
        get_messages s mtype none = msgs) := by
  refine ⟨?_, ?_, ?_, ?_⟩
  · intro s mtype msgs h
    simp [get_messages, h]
  · intro s mtype msgs n h hn
    have hn0 : ¬ n = 0 := by omega
    simp only [get_messages, h, if_neg hn0, pySliceTake,
      if_pos (le_of_lt hn)]
    rw [take_min_length]
  · intro s mtype limit h
    simp [get_messages, h]
  · intro s mtype msgs h
    simp [get_messages, h]

/-- Witness for `get_messages_limit_spec` on a two-record store. -/
theorem get_messages_limit_spec_witness :
    get_messages [("GPS", [[("Alt", 1)], [("Alt", 2)]])] "GPS" (some 0) =
      [[("Alt", 1)], [("Alt", 2)]] ∧
    get_messages [("GPS", [[("Alt", 1)], [("Alt", 2)]])] "GPS" (some 1) =
      [[("Alt", 1)]] ∧
    get_messages [("GPS", [[("Alt", 1)], [("Alt", 2)]])] "BATT" (some 5) =
      [] ∧
    get_messages [("GPS", [[("Alt", 1)], [("Alt", 2)]])] "GPS" none =
      [[("Alt", 1)], [("Alt", 2)]] := by
  refine ⟨?_, ?_, ?_, ?_⟩
  · exact get_messages_limit_spec.1 _ "GPS" _ rfl
  · have h := get_messages_limit_spec.2.1 [("GPS", [[("Alt", 1)], [("Alt", 2)]])]
      "GPS" [[("Alt", 1)], [("Alt", 2)]] 1 rfl (by norm_num)
    rw [h]
    rfl
  · exact get_messages_limit_spec.2.2.1 _ "BATT" (some 5) rfl
  · exact get_messages_limit_spec.2.2.2 _ "GPS" _ rfl

end MavParser
